import Mathlib

/-!
Verification development for the ownership-voucher core of the bootz
repository: the voucher codec, signer (`New`), verifier
(`VerifyAndUnmarshal`), PEM-header stripping (`RemovePemHeaders`) from
`common/ownership_voucher/ownership_voucher.go`, and the security-artifact
assembly (`generateServerTlsCert`, `readOVs`, `parseSecurityArtifacts`)
from the server's main file.

Modelling conventions:
* Go strings are modelled as `List Char` (`Str`).
* The external libraries the code consumes are given idealized symbolic
  models faithful to their documented behaviour:
  - `encoding/json` is modelled at the JSON-value level (`Json`); a byte
    slice that may or may not be valid JSON is `ContentBytes`.  Go's
    `json.Unmarshal` into a struct leaves missing fields at their zero
    values, treats JSON `null` as a no-op, ignores unknown keys, lets the
    last duplicate key win, and errors on a type mismatch; the model
    implements exactly that (with exact key matching).
  - `go.mozilla.org/pkcs7` is modelled symbolically: an envelope carries
    its content, the signer certificate and the identity of the private
    key that produced the signature; `VerifyWithChain` succeeds iff the
    signing key matches the signer certificate's public key and the
    signer certificate is in the trust pool or was issued by a pool
    member.  Arbitrary bytes (`VoucherBytes`) either are empty, are an
    envelope, or fail pkcs7 parsing.
  - `crypto/tls.X509KeyPair` succeeds iff the PEM blocks hold a
    certificate and a private key that match.
* `time.Now()` is modelled by an explicit `now : Nat` argument (an
  instant in nanoseconds); `time.Time.String()` is modelled by an
  injective rendering `timeString` of that instant.
-/

set_option autoImplicit false

namespace Bootz

/-- Go strings, modelled as lists of characters. -/
abbrev Str := List Char

/-- Go `strings.TrimPrefix`: drops the given leading segment when present,
otherwise returns the string unchanged. -/
def trimPre (s pre : Str) : Str :=
  if pre.isPrefixOf s then s.drop pre.length else s

/-- Go `strings.TrimSuffix`: drops the given trailing segment when present,
otherwise returns the string unchanged. -/
def trimSuf (s suf : Str) : Str :=
  if suf.isSuffixOf s then s.take (s.length - suf.length) else s

/-- The PEM header line removed by `RemovePemHeaders`. -/
def pemHeaderLine : Str := "-----BEGIN CERTIFICATE-----\n".data

/-- The PEM footer line removed by `RemovePemHeaders`. -/
def pemFooterLine : Str := "\n-----END CERTIFICATE-----\n".data

/-- `RemovePemHeaders` from `ownership_voucher.go`: strips the PEM
delimiters from a certificate via `strings.TrimPrefix` and
`strings.TrimSuffix`. -/
def RemovePemHeaders (pemBlock : Str) : Str :=
  trimSuf (trimPre pemBlock pemHeaderLine) pemFooterLine

/-- `ovExpiry` from `ownership_voucher.go`: `time.Hour * 24 * 365`, in
nanoseconds (Go `time.Duration` units). -/
def ovExpiry : Nat := 60 * 60 * 1000000000 * 24 * 365

/-- Model of `time.Time.String()`: an injective rendering of the model's
`Nat` instant. -/
def timeString (t : Nat) : Str := (Nat.repr t).data

/-- `Inner` from `ownership_voucher.go`: the RFC 8366-style voucher
claims. -/
structure Inner where
  CreatedOn : Str
  ExpiresOn : Str
  SerialNumber : Str
  Assertion : Str
  PinnedDomainCert : Str
  DomainCertRevocationChecks : Bool
deriving DecidableEq

/-- `OwnershipVoucher` from `ownership_voucher.go`: wraps `Inner` under the
JSON key `ietf-voucher:voucher`. -/
structure OwnershipVoucher where
  OV : Inner
deriving DecidableEq

/-- The zero value of `Inner` (what Go's `OwnershipVoucher{}` holds). -/
def zeroInner : Inner := ⟨[], [], [], [], [], false⟩

/-- The zero value of `OwnershipVoucher`. -/
def zeroOV : OwnershipVoucher := ⟨zeroInner⟩

/-- JSON values, modelling what `encoding/json` parses bytes into. -/
inductive Json where
  | null : Json
  | jbool : Bool → Json
  | jnum : Int → Json
  | jstr : Str → Json
  | jarr : List Json → Json
  | jobj : List (Str × Json) → Json

/-- JSON field tag `created-on`. -/
def createdOnKey : Str := "created-on".data

/-- JSON field tag `expires-on`. -/
def expiresOnKey : Str := "expires-on".data

/-- JSON field tag `serial-number`. -/
def serialNumberKey : Str := "serial-number".data

/-- JSON field tag `assertion`. -/
def assertionKey : Str := "assertion".data

/-- JSON field tag `pinned-domain-cert`. -/
def pinnedDomainCertKey : Str := "pinned-domain-cert".data

/-- JSON field tag `domain-cert-revocation-checks`. -/
def revocationChecksKey : Str := "domain-cert-revocation-checks".data

/-- JSON field tag `ietf-voucher:voucher`. -/
def voucherKey : Str := "ietf-voucher:voucher".data

/-- `json.Marshal` of `Inner`: the struct fields in declaration order with
their JSON tags. -/
def marshalInner (i : Inner) : Json :=
  Json.jobj [(createdOnKey, Json.jstr i.CreatedOn),
             (expiresOnKey, Json.jstr i.ExpiresOn),
             (serialNumberKey, Json.jstr i.SerialNumber),
             (assertionKey, Json.jstr i.Assertion),
             (pinnedDomainCertKey, Json.jstr i.PinnedDomainCert),
             (revocationChecksKey, Json.jbool i.DomainCertRevocationChecks)]

/-- `json.Marshal` of `OwnershipVoucher`. -/
def marshalOV (ov : OwnershipVoucher) : Json :=
  Json.jobj [(voucherKey, marshalInner ov.OV)]

/-- Object-field lookup with Go's duplicate-key semantics: the last
occurrence of a key wins. -/
def jsonLookup (fields : List (Str × Json)) (k : Str) : Option Json :=
  match fields with
  | [] => none
  | (k', v) :: rest =>
    match jsonLookup rest k with
    | some r => some r
    | none => if k' = k then some v else none

/-- Unmarshal one string-typed struct field from a JSON object, following
Go's semantics: a missing key or JSON `null` leaves the zero value `""`; a
present value of any other non-string type is a type error. -/
def getStrField (fields : List (Str × Json)) (k : Str) : Option Str :=
  match jsonLookup fields k with
  | none => some []
  | some Json.null => some []
  | some (Json.jstr s) => some s
  | some _ => none

/-- Unmarshal one bool-typed struct field from a JSON object, following
Go's semantics (missing key or `null` leaves `false`). -/
def getBoolField (fields : List (Str × Json)) (k : Str) : Option Bool :=
  match jsonLookup fields k with
  | none => some false
  | some Json.null => some false
  | some (Json.jbool b) => some b
  | some _ => none

/-- `json.Unmarshal` of a JSON value into `Inner`: the value must be an
object (or `null`, a no-op on the zero value); each known field is read
with Go's missing-field/zero-value semantics; unknown keys are ignored. -/
def unmarshalInner (j : Json) : Option Inner :=
  match j with
  | Json.null => some zeroInner
  | Json.jobj fields =>
    match getStrField fields createdOnKey, getStrField fields expiresOnKey,
          getStrField fields serialNumberKey, getStrField fields assertionKey,
          getStrField fields pinnedDomainCertKey,
          getBoolField fields revocationChecksKey with
    | some co, some eo, some sn, some a, some pdc, some rc =>
      some ⟨co, eo, sn, a, pdc, rc⟩
    | _, _, _, _, _, _ => none
  | _ => none

/-- `json.Unmarshal` of a JSON value into `OwnershipVoucher`. -/
def unmarshalOV (j : Json) : Option OwnershipVoucher :=
  match j with
  | Json.null => some zeroOV
  | Json.jobj fields =>
    match jsonLookup fields voucherKey with
    | none => some zeroOV
    | some jv =>
      match unmarshalInner jv with
      | some i => some ⟨i⟩
      | none => none
  | _ => none

/-- A byte slice handed to `json.Unmarshal`: either the serialization of a
JSON value or bytes that are not valid JSON. -/
inductive ContentBytes where
  | jsonOf : Json → ContentBytes
  | invalid : List Nat → ContentBytes

/-- `json.Marshal` of an `OwnershipVoucher`, as content bytes. -/
def jsonMarshalOV (ov : OwnershipVoucher) : ContentBytes :=
  ContentBytes.jsonOf (marshalOV ov)

/-- `json.Unmarshal` of content bytes into an `OwnershipVoucher`:
fails on bytes that are not valid JSON, otherwise decodes the value. -/
def jsonUnmarshalOV : ContentBytes → Option OwnershipVoucher
  | ContentBytes.jsonOf j => unmarshalOV j
  | ContentBytes.invalid _ => none

/-- Symbolic model of an `x509.Certificate`: the identity of its subject
public key and of the key that issued (signed) it. -/
structure Certificate where
  subjectKey : Nat
  issuerKey : Nat
deriving DecidableEq

/-- Symbolic model of an `rsa.PrivateKey`. -/
structure RSAPrivateKey where
  key : Nat
deriving DecidableEq

/-- Symbolic model of a parsed pkcs7 signed-data envelope: the embedded
content, the signer's certificate carried in the envelope, and the
identity of the private key that produced the signature. -/
structure PKCS7 where
  Content : ContentBytes
  signerCert : Certificate
  sigKey : Nat

/-- Whether a certificate chains to the trust pool: it is itself a pool
member or was issued by a pool member. -/
def certTrusted (pool : List Certificate) (c : Certificate) : Bool :=
  pool.contains c || pool.any (fun r => r.subjectKey == c.issuerKey)

/-- Model of `pkcs7.VerifyWithChain`: the signature is valid iff it was
produced by the private key matching the signer certificate, and the
signer certificate chains to the trust pool. -/
def VerifyWithChain (p7 : PKCS7) (truststore : List Certificate) : Bool :=
  (p7.sigKey == p7.signerCert.subjectKey) && certTrusted truststore p7.signerCert

/-- Bytes presented to the verifier: empty, a well-formed pkcs7 envelope,
or non-empty bytes that fail pkcs7 parsing. -/
inductive VoucherBytes where
  | empty : VoucherBytes
  | junk : List Nat → VoucherBytes
  | envelope : PKCS7 → VoucherBytes

/-- Model of `pkcs7.Parse`. -/
def pkcs7Parse : VoucherBytes → Option PKCS7
  | VoucherBytes.envelope p7 => some p7
  | _ => none

/-- The spec's taxonomy for the verifier's failure modes; each constructor
labels one error-return branch of `VerifyAndUnmarshal`. -/
inductive VerificationError where
  | Empty : VerificationError
  | Malformed : VerificationError
  | SchemaInvalid : VerificationError
  | SignatureInvalid : VerificationError
deriving DecidableEq

/-- `VerifyAndUnmarshal` from `ownership_voucher.go`: rejects empty input,
parses the pkcs7 envelope, unmarshals the embedded content into an
`OwnershipVoucher`, then verifies the signature against the pool. -/
def VerifyAndUnmarshal (b : VoucherBytes) (certPool : List Certificate) :
    Except VerificationError OwnershipVoucher :=
  match b with
  | VoucherBytes.empty => Except.error VerificationError.Empty
  | _ =>
    match pkcs7Parse b with
    | none => Except.error VerificationError.Malformed
    | some p7 =>
      match jsonUnmarshalOV p7.Content with
      | none => Except.error VerificationError.SchemaInvalid
      | some ov =>
        if VerifyWithChain p7 certPool then Except.ok ov
        else Except.error VerificationError.SignatureInvalid

/-- `New` from `ownership_voucher.go`: builds the claims (created-on now,
expires-on now + `ovExpiry`, the given serial, the PEM-stripped pinned
domain cert, zero values for assertion and revocation checks), marshals
them, and signs the bytes with the vendor CA key as sole signer.
`time.Now()` is the explicit `now` argument. -/
def New (now : Nat) (serial : Str) (pdcPem : Str) (vendorCACert : Certificate)
    (vendorCAPriv : RSAPrivateKey) : VoucherBytes :=
  let ov : OwnershipVoucher :=
    ⟨⟨timeString now, timeString (now + ovExpiry), serial, [],
      RemovePemHeaders pdcPem, false⟩⟩
  VoucherBytes.envelope ⟨jsonMarshalOV ov, vendorCACert, vendorCAPriv.key⟩

/-- The claims embedded in a signed voucher's content, when they decode. -/
def claimsOf : VoucherBytes → Option OwnershipVoucher
  | VoucherBytes.envelope p7 => jsonUnmarshalOV p7.Content
  | _ => none

/-- The verdict of a verification result: `none` for success, otherwise
the error kind. -/
def verdictOf : Except VerificationError OwnershipVoucher → Option VerificationError
  | Except.ok _ => none
  | Except.error e => some e

/-- Symbolic model of a PEM block handed to `crypto/tls`: it encodes a
certificate, a private key, or neither. -/
inductive PemData where
  | certPem : Certificate → PemData
  | keyPem : RSAPrivateKey → PemData
  | badPem : List Nat → PemData
deriving DecidableEq

/-- `service.KeyPair` from the server: a PEM certificate together with a
PEM private key. -/
structure KeyPair where
  Cert : PemData
  Key : PemData
deriving DecidableEq

/-- Model of `tls.Certificate`: the parsed certificate with its matching
private key. -/
structure TLSCertificate where
  cert : Certificate
  key : RSAPrivateKey
deriving DecidableEq

/-- Model of `crypto/tls.X509KeyPair`: succeeds iff the blocks hold a
certificate and a private key whose public key matches it. -/
def X509KeyPair (certPEMBlock keyPEMBlock : PemData) : Option TLSCertificate :=
  match certPEMBlock, keyPEMBlock with
  | PemData.certPem c, PemData.keyPem k =>
    if k.key = c.subjectKey then some ⟨c, k⟩ else none
  | _, _ => none

/-- `generateServerTlsCert` from the server main file: creates the TLS
keypair from the PDC key pair via `tls.X509KeyPair`. -/
def generateServerTlsCert (pdc : KeyPair) : Option TLSCertificate :=
  X509KeyPair pdc.Cert pdc.Key

/-- `service.OVList`: a mapping from voucher identifier to raw
signed-voucher bytes (modelled as an association list). -/
abbrev OVList := List (Str × Str)

/-- File-name marker `ov` used by `readOVs` to discover voucher files. -/
def ovNameMarker : Str := "ov".data

/-- File-name marker `ov_` trimmed from the front of a voucher file. -/
def ovNameMarkerUnder : Str := "ov_".data

/-- File-name extension `.txt` trimmed from the end of a voucher file. -/
def txtExtension : Str := ".txt".data

/-- `readOVs` from the server main file, over the in-memory directory
listing (file name, file contents): keeps files whose name starts with
`ov`, keys them by the name with `ov_` and `.txt` trimmed, and fails when
no voucher file was found. -/
def readOVs (files : List (Str × Str)) : Option OVList :=
  let ovs := files.filterMap (fun f =>
    if ovNameMarker.isPrefixOf f.1 then
      some (trimSuf (trimPre f.1 ovNameMarkerUnder) txtExtension, f.2)
    else none)
  if ovs.isEmpty then none else some ovs

/-- The spec's taxonomy for assembly failures, labelling the error-return
branches of `parseSecurityArtifacts` reachable from in-memory inputs. -/
inductive AssemblyError where
  | NoOVsFound : AssemblyError
  | TLSIdentityInvalid : AssemblyError
deriving DecidableEq

/-- `service.SecurityArtifacts`: the aggregate assembled at startup. -/
structure SecurityArtifacts where
  OC : KeyPair
  PDC : KeyPair
  VendorCA : KeyPair
  OV : OVList
  TLSKeypair : TLSCertificate
deriving DecidableEq

/-- `parseSecurityArtifacts` from the server main file, over in-memory
inputs (the three key pairs that `readKeypair` would have produced and
the artifact-directory listing): reads the OVs, then derives the TLS
identity from the PDC key pair, in the source's order. -/
def parseSecurityArtifacts (oc pdc vendorCA : KeyPair) (files : List (Str × Str)) :
    Except AssemblyError SecurityArtifacts :=
  match readOVs files with
  | none => Except.error AssemblyError.NoOVsFound
  | some ovs =>
    match generateServerTlsCert pdc with
    | none => Except.error AssemblyError.TLSIdentityInvalid
    | some tlsCert => Except.ok ⟨oc, pdc, vendorCA, ovs, tlsCert⟩

/-! ### Helper lemmas -/

theorem isPrefixOf_append_self (l r : Str) : l.isPrefixOf (l ++ r) = true := by
  induction l with
  | nil => simp [List.isPrefixOf]
  | cons a as ih => simp [List.isPrefixOf, ih]

theorem drop_length_append (l r : Str) : (l ++ r).drop l.length = r := by
  induction l with
  | nil => rfl
  | cons a as ih => simp [ih]

theorem take_length_append (l r : Str) : (l ++ r).take l.length = l := by
  induction l with
  | nil => rfl
  | cons a as ih => simp [ih]

theorem trimPre_of_append (pre rest : Str) : trimPre (pre ++ rest) pre = rest := by
  simp [trimPre, isPrefixOf_append_self, drop_length_append]

theorem isSuffixOf_append_self (l suf : Str) : suf.isSuffixOf (l ++ suf) = true := by
  simp [List.isSuffixOf, List.reverse_append, isPrefixOf_append_self]

theorem trimSuf_of_append (b suf : Str) : trimSuf (b ++ suf) suf = b := by
  simp [trimSuf, isSuffixOf_append_self, List.length_append, take_length_append]

theorem removePem_wrap (body : Str) :
    RemovePemHeaders (pemHeaderLine ++ body ++ pemFooterLine) = body := by
  rw [RemovePemHeaders, List.append_assoc, trimPre_of_append, trimSuf_of_append]

theorem unmarshalOV_marshalOV (ov : OwnershipVoucher) :
    unmarshalOV (marshalOV ov) = some ov := by
  obtain ⟨⟨co, eo, sn, a, pdc, rc⟩⟩ := ov
  rfl

theorem verify_new (now : Nat) (serial pdcPem : Str) (cert : Certificate)
    (priv : RSAPrivateKey) (pool : List Certificate) :
    VerifyAndUnmarshal (New now serial pdcPem cert priv) pool =
      if (priv.key == cert.subjectKey) && certTrusted pool cert then
        Except.ok ⟨⟨timeString now, timeString (now + ovExpiry), serial, [],
          RemovePemHeaders pdcPem, false⟩⟩
      else Except.error VerificationError.SignatureInvalid := rfl

theorem verify_empty_eq (pool : List Certificate) :
    VerifyAndUnmarshal VoucherBytes.empty pool
      = Except.error VerificationError.Empty := rfl

theorem verify_junk_eq (g : List Nat) (pool : List Certificate) :
    VerifyAndUnmarshal (VoucherBytes.junk g) pool
      = Except.error VerificationError.Malformed := rfl

theorem verify_envelope_eq (p7 : PKCS7) (pool : List Certificate) :
    VerifyAndUnmarshal (VoucherBytes.envelope p7) pool =
      match jsonUnmarshalOV p7.Content with
      | none => Except.error VerificationError.SchemaInvalid
      | some ov =>
        if VerifyWithChain p7 pool then Except.ok ov
        else Except.error VerificationError.SignatureInvalid := rfl

/-! ### Claim theorems -/

/-- C1: Sign/verify agreement: for every serial number, every pinned-domain
certificate string, and every vendor CA key pair (private key matching the
certificate) whose certificate is in the trust pool or was issued by a
pool member, verifying the bytes produced by `New` succeeds and the
returned claims carry exactly the serial that was signed. -/
theorem sign_verify_agreement (now : Nat) (serial pdcPem : Str)
    (cert : Certificate) (priv : RSAPrivateKey) (pool : List Certificate)
    (hkey : priv.key = cert.subjectKey) (htrust : certTrusted pool cert = true) :
    ∃ ov : OwnershipVoucher,
      VerifyAndUnmarshal (New now serial pdcPem cert priv) pool = Except.ok ov
        ∧ ov.OV.SerialNumber = serial := by
  refine ⟨⟨⟨timeString now, timeString (now + ovExpiry), serial, [],
    RemovePemHeaders pdcPem, false⟩⟩, ?_, rfl⟩
  rw [verify_new, hkey]
  simp [htrust]

/-- Witness for C1 at a concrete serial, certificate and key pair. -/
theorem sign_verify_agreement_witness :
    ∃ ov : OwnershipVoucher,
      VerifyAndUnmarshal (New 0 ("1".data) [] ⟨0, 1⟩ ⟨0⟩) [⟨0, 1⟩] = Except.ok ov
        ∧ ov.OV.SerialNumber = ("1".data) :=
  sign_verify_agreement 0 ("1".data) [] ⟨0, 1⟩ ⟨0⟩ [⟨0, 1⟩] rfl (by decide)

/-- C2: Codec round-trip: decoding the canonical encoding of any
`OwnershipVoucher` claims value yields the value back, where encode is the
JSON marshalling of the wrapper and decode its JSON unmarshalling. -/
theorem codec_round_trip (C : OwnershipVoucher) :
    jsonUnmarshalOV (jsonMarshalOV C) = some C :=
  unmarshalOV_marshalOV C

/-- C3: `New` builds claims with created-on equal to the current time,
expires-on equal to that time plus `ovExpiry` (which is exactly 365 days;
the expiry is not a parameter of `New`), the given serial, the given PEM
certificate with the PEM framing stripped, and assertion and
revocation-checks left at their zero values. -/
theorem new_voucher_fields (now : Nat) (serial pdcPem : Str)
    (cert : Certificate) (priv : RSAPrivateKey) :
    claimsOf (New now serial pdcPem cert priv) =
      some ⟨⟨timeString now, timeString (now + ovExpiry), serial, [],
        RemovePemHeaders pdcPem, false⟩⟩
    ∧ ovExpiry = 365 * 24 * 60 * 60 * 1000000000 := by
  exact ⟨unmarshalOV_marshalOV _, by decide⟩

/-- C4 counterexample: an envelope whose content is the JSON object with
every required field missing decodes without error to the zero-valued
voucher, and (with a trusted signer) verification succeeds instead of
failing with the schema error the claim requires for missing required
fields. -/
theorem missing_fields_not_schema_invalid :
    VerifyAndUnmarshal
        (VoucherBytes.envelope ⟨ContentBytes.jsonOf (Json.jobj []), ⟨0, 0⟩, 0⟩)
        [⟨0, 0⟩] = Except.ok zeroOV
    ∧ VerifyAndUnmarshal
        (VoucherBytes.envelope ⟨ContentBytes.jsonOf (Json.jobj []), ⟨0, 0⟩, 0⟩)
        [⟨0, 0⟩] ≠ Except.error VerificationError.SchemaInvalid := by
  refine ⟨rfl, fun h => ?_⟩
  rw [show VerifyAndUnmarshal
      (VoucherBytes.envelope ⟨ContentBytes.jsonOf (Json.jobj []), ⟨0, 0⟩, 0⟩)
      [⟨0, 0⟩] = Except.ok zeroOV from rfl] at h
  exact Except.noConfusion h

/-- C4 (amended): the verifier's error contract: Empty iff the input is
zero-length; Malformed iff nonempty input fails pkcs7 parsing;
SchemaInvalid iff the envelope's content does not unmarshal (content that
is not valid JSON or has a type-mismatched field — missing fields decode
to zero values without error, as the final conjunct records); on a
decodable envelope, success with exactly the decoded claims iff the
signature and chain verify, and SignatureInvalid iff they do not. -/
theorem verify_error_contract (b : VoucherBytes) (pool : List Certificate) :
    (VerifyAndUnmarshal b pool = Except.error VerificationError.Empty ↔
      b = VoucherBytes.empty)
  ∧ (VerifyAndUnmarshal b pool = Except.error VerificationError.Malformed ↔
      (pkcs7Parse b = none ∧ b ≠ VoucherBytes.empty))
  ∧ (∀ p7 : PKCS7, pkcs7Parse b = some p7 →
      (VerifyAndUnmarshal b pool = Except.error VerificationError.SchemaInvalid ↔
        jsonUnmarshalOV p7.Content = none))
  ∧ (∀ (p7 : PKCS7) (ov : OwnershipVoucher), pkcs7Parse b = some p7 →
      jsonUnmarshalOV p7.Content = some ov →
      ((VerifyAndUnmarshal b pool = Except.ok ov ↔ VerifyWithChain p7 pool = true)
        ∧ (VerifyAndUnmarshal b pool
            = Except.error VerificationError.SignatureInvalid ↔
              VerifyWithChain p7 pool = false)))
  ∧ jsonUnmarshalOV (ContentBytes.jsonOf (Json.jobj [])) = some zeroOV := by
  refine ⟨?_, ?_, ?_, ?_, rfl⟩
  · cases b with
    | empty => simp [verify_empty_eq]
    | junk g => simp [verify_junk_eq]
    | envelope p7 =>
      rw [verify_envelope_eq]
      cases h : jsonUnmarshalOV p7.Content with
      | none => simp
      | some ov => cases hv : VerifyWithChain p7 pool <;> simp
  · cases b with
    | empty => simp [verify_empty_eq]
    | junk g => simp [verify_junk_eq, pkcs7Parse]
    | envelope p7 =>
      rw [verify_envelope_eq]
      cases h : jsonUnmarshalOV p7.Content with
      | none => simp [pkcs7Parse]
      | some ov => cases hv : VerifyWithChain p7 pool <;> simp [pkcs7Parse]
  · intro p7 hp
    cases b with
    | empty => simp [pkcs7Parse] at hp
    | junk g => simp [pkcs7Parse] at hp
    | envelope q =>
      simp only [pkcs7Parse, Option.some.injEq] at hp
      subst hp
      rw [verify_envelope_eq]
      cases h : jsonUnmarshalOV q.Content with
      | none => simp
      | some ov => cases hv : VerifyWithChain q pool <;> simp
  · intro p7 ov hp hu
    cases b with
    | empty => simp [pkcs7Parse] at hp
    | junk g => simp [pkcs7Parse] at hp
    | envelope q =>
      simp only [pkcs7Parse, Option.some.injEq] at hp
      subst hp
      rw [verify_envelope_eq, hu]
      cases hv : VerifyWithChain q pool <;> simp

/-- Witness for C4: a parseable envelope whose content is a JSON number
(not an object) is rejected as SchemaInvalid, via the contract. -/
theorem verify_error_contract_witness :
    VerifyAndUnmarshal
        (VoucherBytes.envelope ⟨ContentBytes.jsonOf (Json.jnum 3), ⟨0, 0⟩, 0⟩) []
      = Except.error VerificationError.SchemaInvalid :=
  ((verify_error_contract
    (VoucherBytes.envelope ⟨ContentBytes.jsonOf (Json.jnum 3), ⟨0, 0⟩, 0⟩)
    []).2.2.1 _ rfl).mpr rfl

/-- C5: verification is a pure, deterministic function of the input bytes
and the trust pool: equal inputs give equal results, and the verdict is
independent of the wall-clock instant at which the voucher was created —
in particular an arbitrarily old (long-expired) voucher receives the same
verdict as a fresh one, because expires-on is never compared to a
clock. -/
theorem verify_pure_time_independent :
    (∀ (b b' : VoucherBytes) (pool pool' : List Certificate),
        b = b' → pool = pool' →
        VerifyAndUnmarshal b pool = VerifyAndUnmarshal b' pool')
    ∧ (∀ (now now' : Nat) (serial pdcPem : Str) (cert : Certificate)
        (priv : RSAPrivateKey) (pool : List Certificate),
        verdictOf (VerifyAndUnmarshal (New now serial pdcPem cert priv) pool) =
          verdictOf (VerifyAndUnmarshal (New now' serial pdcPem cert priv) pool)) := by
  constructor
  · intro b b' pool pool' hb hp
    rw [hb, hp]
  · intro now now' serial pdcPem cert priv pool
    rw [verify_new, verify_new]
    cases hv : (priv.key == cert.subjectKey) && certTrusted pool cert <;>
      simp [verdictOf]

/-- Witness for C5 at concrete inputs. -/
theorem verify_pure_time_independent_witness :
    VerifyAndUnmarshal VoucherBytes.empty [] = VerifyAndUnmarshal VoucherBytes.empty [] :=
  verify_pure_time_independent.1 VoucherBytes.empty VoucherBytes.empty [] [] rfl rfl

/-- C6: PEM stripping inverse: for every well-formed PEM certificate
string (standard header line, body, standard footer with its framing
newlines), stripping with `RemovePemHeaders` and re-adding the standard
header and footer yields the original string byte for byte. -/
theorem pem_strip_inverse (s body : Str)
    (h : s = pemHeaderLine ++ body ++ pemFooterLine) :
    pemHeaderLine ++ RemovePemHeaders s ++ pemFooterLine = s := by
  subst h
  rw [removePem_wrap]

/-- Witness for C6 on a concrete well-formed PEM string. -/
theorem pem_strip_inverse_witness :
    pemHeaderLine ++ RemovePemHeaders
        (pemHeaderLine ++ ("MIIB".data) ++ pemFooterLine) ++ pemFooterLine
      = pemHeaderLine ++ ("MIIB".data) ++ pemFooterLine :=
  pem_strip_inverse _ ("MIIB".data) rfl

/-- C7 counterexample: on input that has neither the PEM header nor the
footer, `RemovePemHeaders` silently returns it unchanged instead of
rejecting it, and `New` embeds the malformed material verbatim as the
signed voucher's pinned-domain cert. -/
theorem remove_pem_headers_noop_counterexample :
    RemovePemHeaders ("junk".data) = ("junk".data)
    ∧ (claimsOf (New 0 ("1".data) ("junk".data) ⟨0, 0⟩ ⟨0⟩)).map
        (fun ov => ov.OV.PinnedDomainCert) = some ("junk".data) := by
  exact ⟨rfl, rfl⟩

/-- C7 (amended): `RemovePemHeaders` performs no shape validation: any
input lacking the expected header and footer is returned unchanged (a
silent no-op), so malformed certificate material flows into the signed
voucher unmodified. -/
theorem remove_pem_headers_silent_noop (s : Str)
    (h1 : pemHeaderLine.isPrefixOf s = false)
    (h2 : pemFooterLine.isSuffixOf s = false) :
    RemovePemHeaders s = s := by
  simp [RemovePemHeaders, trimPre, trimSuf, h1, h2]

/-- Witness for the amended C7 on a concrete malformed input. -/
theorem remove_pem_headers_silent_noop_witness :
    RemovePemHeaders ("junky".data) = ("junky".data) :=
  remove_pem_headers_silent_noop ("junky".data) (by decide) (by decide)

/-- C8 counterexample: `New` accepts the empty serial, and the resulting
voucher verifies successfully with `serial-number` empty, so neither sign
nor verify enforces the non-empty-serial invariant. -/
theorem empty_serial_counterexample :
    VerifyAndUnmarshal (New 0 [] ("c".data) ⟨0, 0⟩ ⟨0⟩) [⟨0, 0⟩]
      = Except.ok ⟨⟨timeString 0, timeString (0 + ovExpiry), [], [],
          ("c".data), false⟩⟩ := by
  rfl

/-- C8 (amended): the serial is embedded verbatim and returned unchanged
by verification; a voucher's serial_number is non-empty whenever the
serial given to sign was non-empty (non-emptiness itself is not enforced
by the code). -/
theorem serial_nonempty_preserved (now : Nat) (serial pdcPem : Str)
    (cert : Certificate) (priv : RSAPrivateKey) (pool : List Certificate)
    (hkey : priv.key = cert.subjectKey) (htrust : certTrusted pool cert = true)
    (hserial : serial ≠ []) :
    ∃ ov : OwnershipVoucher,
      VerifyAndUnmarshal (New now serial pdcPem cert priv) pool = Except.ok ov
        ∧ ov.OV.SerialNumber = serial ∧ ov.OV.SerialNumber ≠ [] := by
  refine ⟨⟨⟨timeString now, timeString (now + ovExpiry), serial, [],
    RemovePemHeaders pdcPem, false⟩⟩, ?_, rfl, hserial⟩
  rw [verify_new, hkey]
  simp [htrust]

/-- Witness for the amended C8 at a concrete non-empty serial. -/
theorem serial_nonempty_preserved_witness :
    ∃ ov : OwnershipVoucher,
      VerifyAndUnmarshal (New 1 ("7".data) [] ⟨2, 3⟩ ⟨2⟩) [⟨2, 3⟩] = Except.ok ov
        ∧ ov.OV.SerialNumber = ("7".data) ∧ ov.OV.SerialNumber ≠ [] :=
  serial_nonempty_preserved 1 ("7".data) [] ⟨2, 3⟩ ⟨2⟩ [⟨2, 3⟩] rfl (by decide)
    (by decide)

/-- C9 counterexample: with a PDC key pair whose certificate and key do
not match but an artifact directory containing no voucher files, assembly
fails with the no-OVs error from `readOVs` — which runs first — and not
with the TLS-identity error the claim requires for every mismatched
input. -/
theorem assembly_error_order_counterexample :
    X509KeyPair (PemData.certPem ⟨5, 9⟩) (PemData.keyPem ⟨6⟩) = none
    ∧ parseSecurityArtifacts ⟨PemData.badPem [], PemData.badPem []⟩
        ⟨PemData.certPem ⟨5, 9⟩, PemData.keyPem ⟨6⟩⟩
        ⟨PemData.badPem [], PemData.badPem []⟩ []
      = Except.error AssemblyError.NoOVsFound
    ∧ AssemblyError.NoOVsFound ≠ AssemblyError.TLSIdentityInvalid := by
  exact ⟨rfl, rfl, by decide⟩

/-- C9 (amended): assembly derives the TLS identity from the PDC key
pair's certificate and private key; when the voucher files load
successfully and that certificate and key do not match, assembly fails
with the TLS-identity error and produces no artifact aggregate.  (When no
voucher file is present, the earlier no-OVs failure wins even if the keys
also mismatch.) -/
theorem assembly_tls_identity_invalid (oc pdc vendorCA : KeyPair)
    (files : List (Str × Str)) (ovs : OVList)
    (hov : readOVs files = some ovs)
    (hx : X509KeyPair pdc.Cert pdc.Key = none) :
    parseSecurityArtifacts oc pdc vendorCA files
      = Except.error AssemblyError.TLSIdentityInvalid := by
  simp [parseSecurityArtifacts, hov, generateServerTlsCert, hx]

/-- Witness for the amended C9: one voucher file present, mismatched PDC
certificate and key. -/
theorem assembly_tls_identity_invalid_witness :
    parseSecurityArtifacts ⟨PemData.badPem [], PemData.badPem []⟩
        ⟨PemData.certPem ⟨5, 9⟩, PemData.keyPem ⟨6⟩⟩
        ⟨PemData.badPem [], PemData.badPem []⟩
        [(("ov_a.txt").data, ("sig".data))]
      = Except.error AssemblyError.TLSIdentityInvalid :=
  assembly_tls_identity_invalid _ _ _ _ [(("a".data), ("sig".data))] rfl rfl

/-- C10: the content-schema check precedes the signature check: for every
parseable envelope whose embedded content fails to unmarshal as voucher
claims, verification returns the schema error for every trust pool — in
particular also when the envelope's signature would have verified — so
claims parsing operates on as-yet-unauthenticated bytes. -/
theorem schema_error_precedence (p7 : PKCS7) (pool : List Certificate)
    (h : jsonUnmarshalOV p7.Content = none) :
    VerifyAndUnmarshal (VoucherBytes.envelope p7) pool
      = Except.error VerificationError.SchemaInvalid := by
  rw [verify_envelope_eq, h]

/-- Witness for C10: undecodable content inside an envelope whose
signature and chain would have verified. -/
theorem schema_error_precedence_witness :
    VerifyAndUnmarshal
        (VoucherBytes.envelope ⟨ContentBytes.jsonOf (Json.jarr []), ⟨4, 4⟩, 4⟩)
        [⟨4, 4⟩]
      = Except.error VerificationError.SchemaInvalid
    ∧ VerifyWithChain ⟨ContentBytes.jsonOf (Json.jarr []), ⟨4, 4⟩, 4⟩ [⟨4, 4⟩] = true :=
  ⟨schema_error_precedence ⟨ContentBytes.jsonOf (Json.jarr []), ⟨4, 4⟩, 4⟩ [⟨4, 4⟩] rfl,
    by decide⟩

end Bootz
